import Mathlib

/-!
# Verification of the access-gating and playback logic of shahab-unlocked-streams

Shallow embedding of the two stateful components of the repository:

* the access gate (`src/src/components/AccessControl.tsx` and the variant in
  `src/unnamed/part_002`): a 24-hour grant persisted in `localStorage`, a
  mount-time handshake via the `from_shortener=true` query marker, and a
  redirect flow through an external URL shortener;
* the playback controller (`src/src/components/VideoPlayer.tsx` and
  `src/unnamed/part_001`): progress persistence keyed by a digest of the
  source URL, the 5-second progress sampling rule, and the seek handler.

Machine numbers are modelled as `Int`/`Nat` (epoch milliseconds) and `ℚ`
(playback seconds); `localStorage` is a `String → Option String` map whose
reads may throw, modelled with `Except`.
-/

namespace Streams

/-! ## JS number/string primitives used by the source -/

/-- Decimal digit value of a character, `none` if not `0`–`9`. -/
def digitVal (c : Char) : Option Nat :=
  if c.isDigit then some (c.toNat - '0'.toNat) else none

/-- Accumulate a maximal leading run of decimal digits (the loop inside
JS `parseInt` after the sign). -/
def leadDigitsAux : List Char → Nat → Nat
  | [], acc => acc
  | c :: cs, acc =>
    match digitVal c with
    | some d => leadDigitsAux cs (acc * 10 + d)
    | none => acc

/-- JS `parseInt` on the character list of the input: reads an optional `-`
sign and a maximal run of leading digits; `none` models the `NaN` result
when no digit is found.  Trailing non-digit characters are ignored, as in
JS. -/
def parseIntChars : List Char → Option Int
  | [] => none
  | c :: cs =>
    if c = '-' then
      match cs with
      | [] => none
      | d :: ds =>
        match digitVal d with
        | some _ => some (-(leadDigitsAux (d :: ds) 0 : Int))
        | none => none
    else
      match digitVal c with
      | some _ => some ((leadDigitsAux (c :: cs) 0 : Int))
      | none => none

/-- JS `parseInt(s)` restricted to base 10. -/
def parseIntJS (s : String) : Option Int := parseIntChars s.data

/-- Digit character for `n < 10`. -/
def digitChar (n : Nat) : Char := Char.ofNat ('0'.toNat + n)

/-- Decimal digit string of a natural number (JS `Number.prototype.toString`
on a nonnegative integer value). -/
def natToChars (n : Nat) : List Char :=
  if h : n < 10 then [digitChar n]
  else natToChars (n / 10) ++ [digitChar (n % 10)]
decreasing_by exact Nat.div_lt_self (Nat.lt_of_lt_of_le (by norm_num) (Nat.le_of_not_lt h)) (by norm_num)

/-- Encoding `Date.now().toString()` for a nonnegative epoch-millisecond value. -/
def natToString (n : Nat) : String := ⟨natToChars n⟩

/-! ## The localStorage model -/

/-- A `localStorage` snapshot: string keys to string values. -/
def Store : Type := String → Option String

/-- Model of `localStorage.setItem key value`. -/
def setItem (s : Store) (key value : String) : Store :=
  fun k => if k = key then some value else s k

/-! ## The access gate (`AccessControl.tsx` / `part_002`)

`checkAccess` reads the `access_granted` key inside a `try`/`catch`; a read
that throws is modelled by `Except.error`.  `parseInt` of a non-numeric
string yields `NaN`, and `(now - NaN) < dayInMs` evaluates to `false` in JS,
which the `Option.none` branch captures. -/

/-- The grant TTL in milliseconds, `24 * 60 * 60 * 1000`. -/
def dayInMs : Int := 24 * 60 * 60 * 1000

/-- Function `checkAccess` from both gate variants: `localStorage.getItem` may throw
(`Except.error`, caught → `false`); absent key → `false`; otherwise
`parseInt` the stored value and test `(now - accessTime) < dayInMs`
(`NaN` comparison → `false`). -/
def checkAccess (read : Except Unit (Option String)) (now : Int) : Bool :=
  match read with
  | .error _ => false
  | .ok none => false
  | .ok (some s) =>
    match parseIntJS s with
    | none => false
    | some accessTime => decide (now - accessTime < dayInMs)

/-! ## The mount effect of the access gate

The `useEffect` body: read `from_shortener` from the query string; if it is
`"true"`, write a fresh grant, grant access, and `replaceState` to the bare
pathname (dropping every query parameter); otherwise evaluate `checkAccess`
and, when invalid, schedule `setTimeout(redirectToShortener, 2000)`.  The
source effect returns no cleanup function, recorded in
`cleanupClearsTimer := false`. -/

/-- Model of `URLSearchParams.get`: first value for the name, `null` if absent. -/
def getParam (params : List (String × String)) (name : String) : Option String :=
  (params.find? (fun p => p.1 == name)).map (·.2)

/-- Result of running the gate's mount effect. -/
structure MountResult where
  store : Store
  hasAccess : Bool
  isChecking : Bool
  /-- query parameters of the visible URL after the effect ran -/
  urlParams : List (String × String)
  /-- whether `setTimeout(redirectToShortener, 2000)` was scheduled -/
  timerScheduled : Bool
  /-- whether the effect registered a cleanup that clears the timer
  (the source `useEffect` returns no cleanup function) -/
  cleanupClearsTimer : Bool

/-- The gate's mount `useEffect`, identical in both source variants. -/
def mountEffect (params : List (String × String)) (store : Store) (now : Int) :
    MountResult :=
  if getParam params "from_shortener" = some "true" then
    { store := setItem store "access_granted" (natToString now.toNat)
      hasAccess := true
      isChecking := false
      urlParams := []
      timerScheduled := false
      cleanupClearsTimer := false }
  else
    let accessValid := checkAccess (.ok (store "access_granted")) now
    { store := store
      hasAccess := accessValid
      isChecking := false
      urlParams := params
      timerScheduled := !accessValid
      cleanupClearsTimer := false }

/-! ## The shortener redirect flow

Both variants `fetch` the shortener API and inspect the parsed JSON.  The
fields the code touches are `status`, `shortenedUrl` and `shorturl`; a
network or parse failure is `Except.error`.  JS truthiness of a string
field: `undefined`/`null` and `""` are falsy. -/

/-- The JSON fields of a shortener response that the code inspects. -/
structure ShortenerData where
  status : Option String
  shortenedUrl : Option String
  shorturl : Option String

/-- JS truthiness of an optional string field (`undefined` and `""` falsy). -/
def truthy : Option String → Bool
  | none => false
  | some s => decide (s ≠ "")

/-- Value of the JS expression `a || b` on two string fields. -/
def jsOr (a b : Option String) : String :=
  if truthy a then a.getD "" else b.getD ""

/-- Outcome of one run of `redirectToShortener`. -/
structure RedirectResult where
  /-- `window.location.href` assignment, if any -/
  navigateTo : Option String
  store : Store
  hasAccess : Bool

/-- Function `redirectToShortener` of the `part_002` gate variant: navigate to
`data.shortenedUrl || data.shorturl` when either is truthy; otherwise, and
on any thrown error, fall back to writing a local grant and granting
access. -/
def redirectToShortenerP2 (store : Store) (hasAccess : Bool) (now : Int)
    (fetchResult : Except Unit ShortenerData) : RedirectResult :=
  match fetchResult with
  | .error _ =>
    { navigateTo := none
      store := setItem store "access_granted" (natToString now.toNat)
      hasAccess := true }
  | .ok data =>
    if truthy data.shortenedUrl || truthy data.shorturl then
      { navigateTo := some (jsOr data.shortenedUrl data.shorturl)
        store := store
        hasAccess := hasAccess }
    else
      { navigateTo := none
        store := setItem store "access_granted" (natToString now.toNat)
        hasAccess := true }

/-- Function `redirectToShortener` of the `AccessControl.tsx` gate variant: navigate
to `data.shortenedUrl` when `data.status === 'success'` and the field is
truthy; otherwise, and on any thrown error, navigate directly to the
marker-carrying return URL — no local grant is written. -/
def redirectToShortenerAC (returnUrl : String) (store : Store) (hasAccess : Bool)
    (fetchResult : Except Unit ShortenerData) : RedirectResult :=
  match fetchResult with
  | .error _ =>
    { navigateTo := some returnUrl, store := store, hasAccess := hasAccess }
  | .ok data =>
    if data.status == some "success" && truthy data.shortenedUrl then
      { navigateTo := some (data.shortenedUrl.getD "")
        store := store
        hasAccess := hasAccess }
    else
      { navigateTo := some returnUrl, store := store, hasAccess := hasAccess }

/-! ## The playback controller (`VideoPlayer.tsx` / `part_001`) -/

/-- JS `parseFloat` as far as the player uses it: `none` models `NaN` for a
value with no leading numeric prefix; a decimal literal `intpart.fracpart`
parses to the corresponding rational.  (The stored progress values are
produced by `Number.prototype.toString`, i.e. plain decimal notation.) -/
def parseFloatChars (l : List Char) : Option ℚ :=
  match l with
  | [] => none
  | c :: _ =>
    match digitVal c with
    | none => none
    | some _ =>
      let intPart := leadDigitsAux l 0
      let rest := l.dropWhile (fun c => (digitVal c).isSome)
      match rest with
      | '.' :: frac =>
        let fracDigits := frac.takeWhile (fun c => (digitVal c).isSome)
        some ((intPart : ℚ) + (leadDigitsAux fracDigits 0 : ℚ) / (10 : ℚ) ^ fracDigits.length)
      | _ => some (intPart : ℚ)

/-- JS `parseFloat(s)` (nonnegative inputs, which is all the player stores). -/
def parseFloatJS (s : String) : Option ℚ := parseFloatChars s.data

/-- The base64 alphabet used by `btoa`. -/
def b64Alphabet : List Char :=
  "ABCDEFGHIJKLMNOPQRSTUVWXYZabcdefghijklmnopqrstuvwxyz0123456789+/".data

/-- Character of the base64 alphabet at index `n` (< 64). -/
def b64At (n : Nat) : Char := b64Alphabet.getD n '?'

/-- Base64 of one full 3-byte group: four output characters. -/
def enc3 (b1 b2 b3 : Nat) : List Char :=
  [b64At (b1 / 4), b64At (b1 % 4 * 16 + b2 / 16), b64At (b2 % 16 * 4 + b3 / 64),
    b64At (b3 % 64)]

/-- Model of `btoa` on the byte (code-unit) list of a Latin-1 string: 3-byte groups,
with `=`-padding for a trailing group of 1 or 2 bytes. -/
def btoaBytes : List Nat → List Char
  | [] => []
  | [b1] => [b64At (b1 / 4), b64At (b1 % 4 * 16), '=', '=']
  | [b1, b2] => [b64At (b1 / 4), b64At (b1 % 4 * 16 + b2 / 16), b64At (b2 % 16 * 4), '=']
  | b1 :: b2 :: b3 :: rest => enc3 b1 b2 b3 ++ btoaBytes rest

/-- The digest `const videoId = btoa(url).substring(0, 20)` used as the
per-video storage key. -/
def videoId (url : String) : String :=
  ⟨(btoaBytes (url.data.map Char.toNat)).take 20⟩

/-- JS `Number.prototype.toString` of the playback position, abstracted as
an injective encoding of the rational position (the ES shortest-round-trip
decimal print of a double is injective); the progress-write theorems depend
only on it being a deterministic function of the position. -/
def jsNumToString (t : ℚ) : String :=
  natToString t.num.toNat ++ "/" ++ natToString t.den

/-- Handler `handleTimeUpdate`: on a time-update event at position `t`, write the
progress key iff `Math.floor(t) % 5 === 0` (JS `%` and `Math.floor`
coincide with `Int.floor`/`emod` on the nonnegative playback clock). -/
def handleTimeUpdate (url : String) (store : Store) (t : ℚ) : Store :=
  if ⌊t⌋ % 5 = 0 then
    setItem store ("video_progress_" ++ videoId url) (jsNumToString t)
  else
    store

/-- Whether a single time-update event at position `t` writes progress. -/
def writesProgress (t : ℚ) : Bool := decide (⌊t⌋ % 5 = 0)

/-- Positions of a time-update trace that trigger a progress write. -/
def writeEvents (trace : List ℚ) : List ℚ := trace.filter writesProgress

/-- The progress-restore fragment of the player's mount effect
(`VideoPlayer.tsx` lines 39–42): read the per-video key — *not* inside any
`try`/`catch`, so a throwing read propagates — and, when a value is
present, assign `video.currentTime = parseFloat(savedProgress)` (`none`
models a `NaN` assignment).  `Except.ok none` means no assignment. -/
def restoreProgress (read : Except Unit (Option String)) :
    Except Unit (Option (Option ℚ)) :=
  match read with
  | .error e => .error e
  | .ok none => .ok none
  | .ok (some saved) => .ok (some (parseFloatJS saved))

/-- Handler `handleSeek`: with `duration = 0` the handler returns without effect
(`none`); otherwise the new position is
`((clientX - rect.left) / rect.width) * duration`, assigned unclamped. -/
def handleSeek (duration clientX rectLeft width : ℚ) : Option ℚ :=
  if duration = 0 then none
  else some ((clientX - rectLeft) / width * duration)

/-! ### Round trip of the decimal printer and `parseIntJS` -/

theorem digitVal_digitChar {d : Nat} (h : d < 10) : digitVal (digitChar d) = some d := by
  interval_cases d <;> rfl

theorem leadDigitsAux_append_digit (l : List Char) (d : Nat) (hd : d < 10)
    (hl : ∀ c ∈ l, (digitVal c).isSome) (acc : Nat) :
    leadDigitsAux (l ++ [digitChar d]) acc = leadDigitsAux l acc * 10 + d := by
  induction l generalizing acc with
  | nil => simp [leadDigitsAux, digitVal_digitChar hd]
  | cons c cs ih =>
    have hc : (digitVal c).isSome := hl c (by simp)
    obtain ⟨v, hv⟩ := Option.isSome_iff_exists.mp hc
    simp only [List.cons_append, leadDigitsAux, hv]
    exact ih (fun c hc => hl c (by simp [hc])) _

theorem natToChars_all_digits (n : Nat) : ∀ c ∈ natToChars n, (digitVal c).isSome := by
  induction n using Nat.strong_induction_on with
  | _ n ih =>
    intro c hc
    rw [natToChars] at hc
    split at hc
    · rename_i h
      simp at hc
      subst hc
      simp [digitVal_digitChar h]
    · rename_i h
      rw [List.mem_append] at hc
      rcases hc with hc | hc
      · exact ih (n / 10) (Nat.div_lt_self (by omega) (by norm_num)) c hc
      · simp at hc
        subst hc
        simp [digitVal_digitChar (Nat.mod_lt _ (by norm_num))]

theorem leadDigitsAux_natToChars (n : Nat) : leadDigitsAux (natToChars n) 0 = n := by
  induction n using Nat.strong_induction_on with
  | _ n ih =>
    rw [natToChars]
    split
    · rename_i h
      simp [leadDigitsAux, digitVal_digitChar h]
    · rename_i h
      rw [leadDigitsAux_append_digit _ _ (Nat.mod_lt _ (by norm_num))
        (natToChars_all_digits _)]
      rw [ih (n / 10) (Nat.div_lt_self (by omega) (by norm_num))]
      omega

theorem natToChars_ne_nil (n : Nat) : natToChars n ≠ [] := by
  rw [natToChars]
  split <;> simp

theorem natToChars_head_digit (n : Nat) :
    ∃ c cs, natToChars n = c :: cs ∧ (digitVal c).isSome := by
  rcases h : natToChars n with _ | ⟨c, cs⟩
  · exact absurd h (natToChars_ne_nil n)
  · exact ⟨c, cs, rfl, natToChars_all_digits n c (h ▸ by simp)⟩

/-- Writing a nonnegative integer with `toString` and reading it back with
`parseInt` recovers the integer. -/
theorem parseIntJS_natToString (n : Nat) : parseIntJS (natToString n) = some (n : Int) := by
  obtain ⟨c, cs, hcs, hdig⟩ := natToChars_head_digit n
  obtain ⟨v, hv⟩ := Option.isSome_iff_exists.mp hdig
  have hne : c ≠ '-' := by
    intro h
    subst h
    simp [digitVal] at hv
  have hstep : leadDigitsAux (c :: cs) 0 = n := by
    have := leadDigitsAux_natToChars n
    rwa [hcs] at this
  show parseIntChars (natToString n).data = some (n : Int)
  have hdata : (natToString n).data = c :: cs := hcs ▸ rfl
  rw [hdata]
  simp only [parseIntChars, if_neg hne, hv, hstep]

/-! ### Properties of the store -/

theorem setItem_same (s : Store) (key value : String) :
    setItem s key value key = some value := by
  simp [setItem]

/-- Writing the same key/value twice leaves the store unchanged. -/
theorem setItem_idem (s : Store) (key value : String) :
    setItem (setItem s key value) key value = setItem s key value := by
  funext k
  by_cases h : k = key <;> simp [setItem, h]

/-! ## Theorems about the access gate -/

/-- Unfolding of `mountEffect` in the handshake branch. -/
theorem mountEffect_marker {params : List (String × String)} {store : Store} {now : Int}
    (h : getParam params "from_shortener" = some "true") :
    mountEffect params store now =
      { store := setItem store "access_granted" (natToString now.toNat)
        hasAccess := true
        isChecking := false
        urlParams := []
        timerScheduled := false
        cleanupClearsTimer := false } := by
  rw [mountEffect, if_pos h]

/-- Unfolding of `mountEffect` in the no-marker branch. -/
theorem mountEffect_no_marker {params : List (String × String)} {store : Store} {now : Int}
    (h : ¬getParam params "from_shortener" = some "true") :
    mountEffect params store now =
      { store := store
        hasAccess := checkAccess (.ok (store "access_granted")) now
        isChecking := false
        urlParams := params
        timerScheduled := !checkAccess (.ok (store "access_granted")) now
        cleanupClearsTimer := false } := by
  rw [mountEffect, if_neg h]

/-- Reading back a stored `Date.now().toString()` grant recovers the
timestamp. -/
theorem parseIntJS_grant {t : Int} (ht : 0 ≤ t) :
    parseIntJS (natToString t.toNat) = some t := by
  rw [parseIntJS_natToString]
  congr 1
  omega

/-- C1: for every stored grant timestamp `t` and current time `now`,
`checkAccess` reports granted iff `now - t < 24*60*60*1000` ms; at exactly
24 hours the grant is treated as expired (strict inequality). -/
theorem checkAccess_granted_iff (now t : Int) (ht : 0 ≤ t) :
    (checkAccess (.ok (some (natToString t.toNat))) now = true ↔ now - t < dayInMs) ∧
    (now - t = dayInMs → checkAccess (.ok (some (natToString t.toNat))) now = false) := by
  have hparse := parseIntJS_grant ht
  constructor
  · simp [checkAccess, hparse]
  · intro h
    simp [checkAccess, hparse, h]

theorem checkAccess_granted_iff_witness :
    (0 : Int) ≤ 1000 ∧
      checkAccess (.ok (some (natToString (1000 : Int).toNat))) 1500 = true ∧
      checkAccess (.ok (some (natToString (1000 : Int).toNat))) (1000 + dayInMs) = false := by
  refine ⟨by norm_num, ?_, ?_⟩
  · exact ((checkAccess_granted_iff 1500 1000 (by norm_num)).1).mpr (by norm_num [dayInMs])
  · exact (checkAccess_granted_iff (1000 + dayInMs) 1000 (by norm_num)).2 (by ring)

/-- C2: with `from_shortener=true` among the mount-time query parameters,
the gate — regardless of the prior grant state — writes a grant equal to
the current timestamp, transitions to `Granted`, and strips the marker from
the visible URL; reloading the resulting address does not re-enter the
handshake path and, within the TTL, is granted from the stored grant. -/
theorem mountEffect_handshake (params : List (String × String)) (store : Store)
    (now : Int) (hnow : 0 ≤ now)
    (hmarker : getParam params "from_shortener" = some "true") :
    (mountEffect params store now).store "access_granted" = some (natToString now.toNat) ∧
    (mountEffect params store now).hasAccess = true ∧
    getParam (mountEffect params store now).urlParams "from_shortener" = none ∧
    (∀ now' : Int, now' - now < dayInMs →
      (mountEffect (mountEffect params store now).urlParams
          (mountEffect params store now).store now').hasAccess = true ∧
      (mountEffect (mountEffect params store now).urlParams
          (mountEffect params store now).store now').timerScheduled = false) := by
  have hself : (setItem store "access_granted" (natToString now.toNat)) "access_granted"
      = some (natToString now.toNat) := setItem_same ..
  rw [mountEffect_marker hmarker]
  have hempty : getParam ([] : List (String × String)) "from_shortener" = none := rfl
  refine ⟨hself, rfl, hempty, ?_⟩
  intro now' hlt
  have hcheck : checkAccess (.ok (some (natToString now.toNat))) now' = true := by
    simp [checkAccess, parseIntJS_grant hnow]
    exact hlt
  rw [mountEffect_no_marker (by rw [hempty]; exact fun h => Option.noConfusion h)]
  simp [hself, hcheck]

theorem mountEffect_handshake_witness :
    (0 : Int) ≤ 7 ∧
      getParam [("from_shortener", "true")] "from_shortener" = some "true" ∧
      (mountEffect [("from_shortener", "true")] (fun _ => none) 7).hasAccess = true := by
  refine ⟨by norm_num, by decide, ?_⟩
  exact (mountEffect_handshake [("from_shortener", "true")] (fun _ => none) 7
    (by norm_num) (by decide)).2.1

/-- C3 (as stated) is false for the `AccessControl.tsx` gate variant: on a
response missing both URL fields it writes no grant and stays denied,
navigating directly to the return URL instead of failing open locally. -/
theorem redirectAC_no_local_grant :
    (redirectToShortenerAC "https://mywebsite.com/?from_shortener=true"
        (fun _ => none) false (.ok ⟨none, none, none⟩)).store "access_granted" = none ∧
    (redirectToShortenerAC "https://mywebsite.com/?from_shortener=true"
        (fun _ => none) false (.ok ⟨none, none, none⟩)).hasAccess = false ∧
    (redirectToShortenerAC "https://mywebsite.com/?from_shortener=true"
        (fun _ => none) false (.ok ⟨none, none, none⟩)).navigateTo =
      some "https://mywebsite.com/?from_shortener=true" := by
  exact ⟨rfl, rfl, rfl⟩

/-- C3 amended: in the `part_002` gate variant, every response missing both
URL fields (and every thrown network/parse failure) makes the gate write a
grant locally and transition to `Granted` — it does not remain in
`Denied`. -/
theorem redirectP2_fail_open (store : Store) (hasAcc : Bool) (now : Int)
    (d : ShortenerData) (h1 : truthy d.shortenedUrl = false)
    (h2 : truthy d.shorturl = false) :
    ((redirectToShortenerP2 store hasAcc now (.ok d)).store "access_granted" =
        some (natToString now.toNat) ∧
      (redirectToShortenerP2 store hasAcc now (.ok d)).hasAccess = true ∧
      (redirectToShortenerP2 store hasAcc now (.ok d)).navigateTo = none) ∧
    ((redirectToShortenerP2 store hasAcc now (.error ())).store "access_granted" =
        some (natToString now.toNat) ∧
      (redirectToShortenerP2 store hasAcc now (.error ())).hasAccess = true ∧
      (redirectToShortenerP2 store hasAcc now (.error ())).navigateTo = none) := by
  have hcond : (truthy d.shortenedUrl || truthy d.shorturl) = false := by
    rw [h1, h2]
    rfl
  refine ⟨?_, ?_⟩
  · simp [redirectToShortenerP2, hcond, setItem_same]
  · simp [redirectToShortenerP2, setItem_same]

theorem redirectP2_fail_open_witness :
    truthy (ShortenerData.mk (some "error") none none).shortenedUrl = false ∧
    truthy (ShortenerData.mk (some "error") none none).shorturl = false ∧
    (redirectToShortenerP2 (fun _ => none) false 42
        (.ok ⟨some "error", none, none⟩)).hasAccess = true := by
  refine ⟨by decide, by decide, ?_⟩
  exact (redirectP2_fail_open (fun _ => none) false 42 ⟨some "error", none, none⟩
    (by decide) (by decide)).1.2.1

/-- C4: the gate's mount effect, in the denied case, schedules the
2-second auto-redirect `setTimeout` but registers no cleanup, so nothing
cancels the timer on unmount or on a later grant — contrary to the spec's
requirement that the timer be cleared. -/
theorem mountEffect_timer_not_cleared (params : List (String × String))
    (store : Store) (now : Int)
    (hmarker : getParam params "from_shortener" ≠ some "true")
    (hinvalid : checkAccess (.ok (store "access_granted")) now = false) :
    (mountEffect params store now).timerScheduled = true ∧
    (mountEffect params store now).cleanupClearsTimer = false := by
  simp [mountEffect, hmarker, hinvalid]

theorem mountEffect_timer_not_cleared_witness :
    getParam ([] : List (String × String)) "from_shortener" ≠ some "true" ∧
    checkAccess (.ok ((fun _ => none : Store) "access_granted")) 0 = false ∧
    (mountEffect [] (fun _ => none) 0).timerScheduled = true := by
  refine ⟨by decide, rfl, ?_⟩
  exact (mountEffect_timer_not_cleared [] (fun _ => none) 0 (by decide) rfl).1

/-! ## Theorems about the playback controller -/

/-- C5 (as stated) is false: during continuous playback sampled once per
second from 0 to 12 seconds, three time-update events write progress —
at t = 0, 5 and 10 — not exactly two. -/
theorem progress_writes_zero_to_twelve :
    writeEvents [0, 1, 2, 3, 4, 5, 6, 7, 8, 9, 10, 11, 12] = [0, 5, 10] ∧
    (writeEvents [0, 1, 2, 3, 4, 5, 6, 7, 8, 9, 10, 11, 12]).length ≠ 2 := by
  constructor
  · rfl
  · intro h
    rw [show writeEvents [0, 1, 2, 3, 4, 5, 6, 7, 8, 9, 10, 11, 12] = [0, 5, 10] from rfl] at h
    simp at h

/-- C5 amended: a time-update event writes progress iff `5 ∣ ⌊t⌋`; such a
write stores the position under the per-video key and replaying the same
position is idempotent; in the 0-to-12-second scenario the writing events
are exactly t = 0, 5 and 10 (three writes, including t = 0). -/
theorem progress_write_iff (url : String) (store : Store) (t : ℚ) :
    (writesProgress t = true ↔ (5 : Int) ∣ ⌊t⌋) ∧
    (writesProgress t = true →
      handleTimeUpdate url store t =
        setItem store ("video_progress_" ++ videoId url) (jsNumToString t)) ∧
    (writesProgress t = false → handleTimeUpdate url store t = store) ∧
    handleTimeUpdate url (handleTimeUpdate url store t) t = handleTimeUpdate url store t ∧
    writeEvents [0, 1, 2, 3, 4, 5, 6, 7, 8, 9, 10, 11, 12] = [0, 5, 10] := by
  have hiff : writesProgress t = true ↔ ⌊t⌋ % 5 = 0 := by
    simp [writesProgress]
  refine ⟨hiff.trans (by omega), ?_, ?_, ?_, rfl⟩
  · intro hw
    simp only [handleTimeUpdate, if_pos (hiff.mp hw)]
  · intro hw
    have hmod : ¬⌊t⌋ % 5 = 0 := by
      intro hmod
      rw [hiff.mpr hmod] at hw
      exact Bool.noConfusion hw
    simp only [handleTimeUpdate, if_neg hmod]
  · by_cases hmod : ⌊t⌋ % 5 = 0
    · simp only [handleTimeUpdate, if_pos hmod]
      exact setItem_idem ..
    · simp only [handleTimeUpdate, if_neg hmod]

theorem progress_write_iff_witness :
    writesProgress 5 = true ∧
    handleTimeUpdate "u" (fun _ => none) 5 =
      setItem (fun _ => none) ("video_progress_" ++ videoId "u") (jsNumToString 5) ∧
    writesProgress 7 = false ∧
    handleTimeUpdate "u" (fun _ => none) 7 = (fun _ => none) := by
  refine ⟨by decide, ?_, by decide, ?_⟩
  · exact (progress_write_iff "u" (fun _ => none) 5).2.1 (by decide)
  · exact (progress_write_iff "u" (fun _ => none) 7).2.2.1 (by decide)

/-! ### The `videoId` digest (C6) -/

theorem btoaBytes_cons3 (b1 b2 b3 : Nat) (rest : List Nat) :
    btoaBytes (b1 :: b2 :: b3 :: rest) = enc3 b1 b2 b3 ++ btoaBytes rest := by
  cases rest with
  | nil => rfl
  | cons x xs => rfl

theorem btoaBytes_append_three (n : Nat) :
    ∀ l rest : List Nat, l.length = 3 * n →
      btoaBytes (l ++ rest) = btoaBytes l ++ btoaBytes rest := by
  induction n with
  | zero =>
    intro l rest hl
    rw [List.length_eq_zero.mp hl]
    rfl
  | succ n ih =>
    intro l rest hl
    match l, hl with
    | b1 :: b2 :: b3 :: l', hl =>
      have hl' : l'.length = 3 * n := by
        simp only [List.length_cons] at hl
        omega
      simp only [List.cons_append, btoaBytes_cons3, List.append_assoc]
      rw [ih l' rest hl']

theorem btoaBytes_length_three (n : Nat) :
    ∀ l : List Nat, l.length = 3 * n → (btoaBytes l).length = 4 * n := by
  induction n with
  | zero =>
    intro l hl
    rw [List.length_eq_zero.mp hl]
    rfl
  | succ n ih =>
    intro l hl
    match l, hl with
    | b1 :: b2 :: b3 :: l', hl =>
      have hl' : l'.length = 3 * n := by
        simp only [List.length_cons] at hl
        omega
      rw [btoaBytes_cons3, List.length_append, ih l' hl']
      simp [enc3]
      omega

/-- C6 is not collision-resistant: `videoId` depends only on the first 15
characters of the URL, so any two URLs of length at least 15 that agree on
their first 15 characters receive the same storage key. -/
theorem videoId_ignores_tail (u v : String)
    (hu : 15 ≤ u.data.length) (hv : 15 ≤ v.data.length)
    (hpre : u.data.take 15 = v.data.take 15) :
    videoId u = videoId v := by
  have key : ∀ w : String, 15 ≤ w.data.length →
      (btoaBytes (w.data.map Char.toNat)).take 20 =
        btoaBytes ((w.data.take 15).map Char.toNat) := by
    intro w hw
    have hsplit : w.data = w.data.take 15 ++ w.data.drop 15 :=
      (List.take_append_drop 15 w.data).symm
    have hlen : ((w.data.take 15).map Char.toNat).length = 3 * 5 := by
      rw [List.length_map, List.length_take]
      omega
    calc (btoaBytes (w.data.map Char.toNat)).take 20
        = (btoaBytes (((w.data.take 15) ++ (w.data.drop 15)).map Char.toNat)).take 20 := by
          rw [← hsplit]
      _ = (btoaBytes ((w.data.take 15).map Char.toNat ++
            (w.data.drop 15).map Char.toNat)).take 20 := by
          rw [List.map_append]
      _ = (btoaBytes ((w.data.take 15).map Char.toNat) ++
            btoaBytes ((w.data.drop 15).map Char.toNat)).take 20 := by
          rw [btoaBytes_append_three 5 _ _ hlen]
      _ = btoaBytes ((w.data.take 15).map Char.toNat) := by
          have h20 : (btoaBytes ((w.data.take 15).map Char.toNat)).length = 20 :=
            btoaBytes_length_three 5 _ hlen
          rw [← h20, List.take_left]
  unfold videoId
  rw [key u hu, key v hv, hpre]

theorem videoId_ignores_tail_witness :
    15 ≤ "https://cdn.example.com/lectures/algebra-01.m3u8".data.length ∧
    "https://cdn.example.com/lectures/algebra-01.m3u8".data.take 15 =
      "https://cdn.example.com/lectures/algebra-02.m3u8".data.take 15 ∧
    videoId "https://cdn.example.com/lectures/algebra-01.m3u8" =
      videoId "https://cdn.example.com/lectures/algebra-02.m3u8" := by
  refine ⟨by decide, by decide, ?_⟩
  exact videoId_ignores_tail _ _ (by decide) (by decide) (by decide)

/-- C6's collision-resistance fails on concrete data: two distinct lecture
URLs sharing a 15-character prefix receive the identical storage key. -/
theorem videoId_collision :
    videoId "https://cdn.example.com/lectures/algebra-01.m3u8" =
      videoId "https://cdn.example.com/lectures/algebra-02.m3u8" ∧
    "https://cdn.example.com/lectures/algebra-01.m3u8" ≠
      "https://cdn.example.com/lectures/algebra-02.m3u8" := by
  exact ⟨rfl, by decide⟩

/-! ### The seek handler (C7) -/

/-- C7 (as stated) is false: with `duration = 100`, a click at
`clientX = 0` on a track whose left edge is at 10 and whose width is 100
produces position −10, outside `[0, duration]` — the handler does not
clamp. -/
theorem handleSeek_unclamped :
    handleSeek 100 0 10 100 = some (-10) ∧ ¬(0 : ℚ) ≤ -10 := by
  constructor
  · rw [handleSeek, if_neg (by norm_num)]
    norm_num
  · norm_num

/-- C7 amended: `handleSeek` is a no-op when the duration is 0; otherwise
it sets the position to `fraction * duration` where
`fraction = (clientX - rect.left) / rect.width`, with no clamping — the
computed position can lie outside `[0, duration]` when the pointer is
outside the track. -/
theorem handleSeek_spec (duration clientX rectLeft width : ℚ) :
    (duration = 0 → handleSeek duration clientX rectLeft width = none) ∧
    (duration ≠ 0 → handleSeek duration clientX rectLeft width =
      some ((clientX - rectLeft) / width * duration)) := by
  constructor
  · intro h
    rw [handleSeek, if_pos h]
  · intro h
    rw [handleSeek, if_neg h]

theorem handleSeek_spec_witness :
    handleSeek 0 3 1 2 = none ∧
    handleSeek 100 60 10 100 = some 50 := by
  constructor
  · exact (handleSeek_spec 0 3 1 2).1 rfl
  · rw [(handleSeek_spec 100 60 10 100).2 (by norm_num)]
    norm_num

/-! ### The shortener response fields (C8) -/

/-- C8 (as stated) is false for the `AccessControl.tsx` gate variant: a
well-formed success response carrying the URL only under `shorturl` is not
accepted — the gate falls back to the direct return URL instead of
navigating to the shortened URL. -/
theorem redirectAC_rejects_shorturl :
    (redirectToShortenerAC "https://mywebsite.com/?from_shortener=true"
        (fun _ => none) false
        (.ok ⟨some "success", none, some "https://vpl.ink/abc"⟩)).navigateTo =
      some "https://mywebsite.com/?from_shortener=true" ∧
    (redirectToShortenerAC "https://mywebsite.com/?from_shortener=true"
        (fun _ => none) false
        (.ok ⟨some "success", none, some "https://vpl.ink/abc"⟩)).navigateTo ≠
      some "https://vpl.ink/abc" := by
  exact ⟨rfl, by decide⟩

/-- C8 amended: the `part_002` gate variant accepts a shortened URL under
either field name — `shortenedUrl` or `shorturl` — and navigates to it;
the `AccessControl.tsx` variant accepts only `shortenedUrl` (with
`status === 'success'`). -/
theorem redirectP2_either_field (store : Store) (hasAcc : Bool) (now : Int)
    (st : Option String) (u : String) (hu : u ≠ "") :
    (redirectToShortenerP2 store hasAcc now (.ok ⟨st, some u, none⟩)).navigateTo = some u ∧
    (redirectToShortenerP2 store hasAcc now (.ok ⟨st, none, some u⟩)).navigateTo = some u := by
  constructor
  · simp [redirectToShortenerP2, jsOr, truthy, hu]
  · simp [redirectToShortenerP2, jsOr, truthy, hu]

theorem redirectP2_either_field_witness :
    "https://vpl.ink/abc" ≠ "" ∧
    (redirectToShortenerP2 (fun _ => none) false 0
        (.ok ⟨none, none, some "https://vpl.ink/abc"⟩)).navigateTo =
      some "https://vpl.ink/abc" := by
  refine ⟨by decide, ?_⟩
  exact (redirectP2_either_field (fun _ => none) false 0 none "https://vpl.ink/abc"
    (by decide)).2

/-! ### Persistence failures (C9) -/

/-- C9 (as stated) is false: the progress-restore path of the player's
mount effect wraps the storage read in no `try`/`catch`, so a throwing
read propagates out of the effect instead of degrading to a fresh video. -/
theorem restoreProgress_propagates :
    restoreProgress (Except.error ()) = Except.error () := rfl

/-- C9 amended: the access check catches a throwing storage read and
treats a corrupt grant as absent (result `false`), but the progress-restore
path propagates a throwing read, and a corrupt stored progress value is
assigned as a `NaN` position rather than skipped. -/
theorem persistence_failure_behavior (now : Int) :
    checkAccess (.error ()) now = false ∧
    checkAccess (.ok (some "corrupt")) now = false ∧
    checkAccess (.ok none) now = false ∧
    restoreProgress (.error ()) = .error () ∧
    restoreProgress (.ok none) = .ok none ∧
    restoreProgress (.ok (some "corrupt")) = .ok (some none) := by
  refine ⟨rfl, ?_, rfl, rfl, rfl, ?_⟩
  · have : parseIntJS "corrupt" = none := by decide
    simp [checkAccess, this]
  · have : parseFloatJS "corrupt" = none := by decide
    simp [restoreProgress, this]

theorem persistence_failure_behavior_witness :
    checkAccess (.error ()) 0 = false ∧ restoreProgress (.error ()) = .error () :=
  ⟨(persistence_failure_behavior 0).1, (persistence_failure_behavior 0).2.2.2.1⟩

end Streams
